import Mathlib

/-!
Verification of the Market-Analysis event-scoring and correlation-storage
core, shallowly embedded from the Python source.

Conventions of the embedding:
* Python floats are modelled as exact rationals (ℚ); the scoring arithmetic
  (division, absolute value, min, multiplication) is carried out exactly.
* `datetime` timestamps are modelled as rationals counting POSIX seconds, so
  `(a - b).total_seconds()` becomes plain subtraction.
* Python exceptions are modelled with `Except`: a raising computation returns
  `.error`; for the database layer the error value carries the committed
  database state after the rollback performed by the raising method.
* Keyword-argument constructor calls whose validity is part of the observed
  behaviour (dataclass required fields, SQLAlchemy mapped-column checks) are
  modelled by explicit kwargs records checked by a `fromKwargs` function.
-/

namespace MarketAnalysis

/-- Event dataclass from src/models/price_event.py: timestamp, event_type,
source, description, optional sentiment_score. -/
structure Event where
  timestamp : ℚ
  event_type : String
  source : String
  description : String
  sentiment_score : Option ℚ
deriving DecidableEq

/-- PriceEventCorrelation dataclass from src/models/price_event.py. All three
fields are required: the generated constructor has no default for any of them. -/
structure PriceEventCorrelation where
  event : Event
  impact_score : ℚ
  confidence_level : ℚ
deriving DecidableEq

/-- Keyword arguments supplied at a Python call site of the
`PriceEventCorrelation` dataclass constructor; a field is `some v` exactly when
the call passes that keyword. -/
structure PECKwargs where
  event : Option Event := none
  impact_score : Option ℚ := none
  confidence_level : Option ℚ := none

/-- Semantics of calling the dataclass constructor: every field of
`PriceEventCorrelation` is required (no defaults in src/models/price_event.py),
so a call that omits any of them raises TypeError. -/
def PriceEventCorrelation.fromKwargs (k : PECKwargs) : Except String PriceEventCorrelation :=
  match k.event, k.impact_score, k.confidence_level with
  | some e, some i, some c => .ok ⟨e, i, c⟩
  | _, _, _ => .error "TypeError: PriceEventCorrelation.__init__ missing required argument"

/-- Temporal proximity factor from EventAnalyzer.analyze_influences
(src/src/analysis/event_analyzer.py lines 83-84):
time_diff = abs((price_change_date - event.timestamp).total_seconds() / 3600);
time_factor = 1.0 / (1.0 + time_diff). -/
def time_factor (price_change_date ts : ℚ) : ℚ :=
  1 / (1 + |(price_change_date - ts) / 3600|)

/-- Sentiment agreement factor from EventAnalyzer.analyze_influences
(lines 86-92): 1.0 when the event has no sentiment score; |score| when the
sentiment sign matches the sign of the price change; 0.5 otherwise. -/
def sentiment_factor (price_change_percent : ℚ) (s : Option ℚ) : ℚ :=
  match s with
  | none => 1
  | some v =>
    if (price_change_percent > 0 ∧ v > 0) ∨ (price_change_percent < 0 ∧ v < 0) then |v|
    else 1/2

/-- Event-category weight from EventAnalyzer.analyze_influences (lines 94-98):
1.5 for ETF, 1.2 for REGULATION, 1.0 for every other event_type. -/
def event_type_factor (t : String) : ℚ :=
  if t = "ETF" then 3/2
  else if t = "REGULATION" then 6/5
  else 1

/-- Final per-event impact score (line 100):
min(1.0, time_factor * sentiment_factor * event_type_factor). -/
def impact_score (price_change_date price_change_percent : ℚ) (e : Event) : ℚ :=
  min 1 (time_factor price_change_date e.timestamp *
         sentiment_factor price_change_percent e.sentiment_score *
         event_type_factor e.event_type)

/-- One iteration of the analyze_influences loop: compute the impact score and
call the PriceEventCorrelation constructor exactly as the source does, with
keywords event and impact_score only (line 101-104). -/
def scoreEvent (price_change_date price_change_percent : ℚ) (e : Event) :
    Except String PriceEventCorrelation :=
  PriceEventCorrelation.fromKwargs
    { event := some e
      impact_score := some (impact_score price_change_date price_change_percent e) }

/-- The sort on line 106: causes.sort(key=lambda x: x.impact_score,
reverse=True). Python list.sort is a stable sort; a stable sort keyed
descending by impact_score is observationally List.mergeSort with the
comparator (b.impact_score ≤ a.impact_score). -/
def sortCauses (l : List PriceEventCorrelation) : List PriceEventCorrelation :=
  l.mergeSort (fun a b => decide (b.impact_score ≤ a.impact_score))

/-- The scoring loop of analyze_influences (lines 81-105): events are scored in
input order and appended to causes; an exception raised while scoring an event
aborts the loop, as in Python. -/
def scoreAll (price_change_date price_change_percent : ℚ) :
    List Event → Except String (List PriceEventCorrelation)
  | [] => .ok []
  | e :: es =>
    match scoreEvent price_change_date price_change_percent e with
    | .error msg => .error msg
    | .ok c =>
      match scoreAll price_change_date price_change_percent es with
      | .error msg => .error msg
      | .ok cs => .ok (c :: cs)

/-- EventAnalyzer.analyze_influences (lines 78-107): score each event in input
order (raising at the first constructor failure, as Python does), then sort the
causes by impact score descending and return them. -/
def analyze_influences (price_change_date price_change_percent : ℚ)
    (events : List Event) : Except String (List PriceEventCorrelation) :=
  match scoreAll price_change_date price_change_percent events with
  | .error msg => .error msg
  | .ok causes => .ok (sortCauses causes)

/-- Row of the price_changes table (src/models/database.py PriceChange):
surrogate id plus the mapped columns (created_at-free). -/
structure PriceChangeRow where
  id : Nat
  timestamp : ℚ
  price_before : ℚ
  price_after : ℚ
  percentage_change : ℚ
  volume : Option ℚ
deriving DecidableEq

/-- Row of the events table (src/models/database.py Event). -/
structure EventRow where
  id : Nat
  timestamp : ℚ
  event_type : String
  source : String
  description : String
  sentiment_score : Option ℚ
deriving DecidableEq

/-- Row of the event_price_correlations table (src/models/database.py
EventPriceCorrelation). Mapped columns: id, event_id, price_change_id,
impact_score, created_at. There is NO confidence_level column. The
created_at column (a storage-assigned default timestamp) carries no
information used by any lookup and is omitted. -/
structure CorrelationRow where
  id : Nat
  event_id : Nat
  price_change_id : Nat
  impact_score : ℚ
deriving DecidableEq

/-- Keyword arguments supplied at a call site of the SQLAlchemy declarative
constructor of EventPriceCorrelation. The declarative constructor accepts only
keywords naming mapped attributes; confidence_level names none. -/
structure EPCKwargs where
  event_id : Option Nat := none
  price_change_id : Option Nat := none
  impact_score : Option ℚ := none
  confidence_level : Option ℚ := none

/-- Semantics of the declarative constructor of EventPriceCorrelation: a
confidence_level keyword raises TypeError because the mapped class declares no
such attribute; otherwise the row is built from the given columns (every call
site in the repository supplies event_id, price_change_id and impact_score;
omitting one of those non-nullable columns would fail at flush instead). -/
def EPCfromKwargs (freshId : Nat) (k : EPCKwargs) : Except String CorrelationRow :=
  if k.confidence_level.isSome then
    .error "TypeError: confidence_level is an invalid keyword argument for EventPriceCorrelation"
  else
    match k.event_id, k.price_change_id, k.impact_score with
    | some e, some p, some i => .ok ⟨freshId, e, p, i⟩
    | _, _, _ => .error "IntegrityError: NOT NULL constraint failed"

/-- Committed contents of the three tables. The session's uncommitted pending
adds never survive a statement in this program (every save_* method either
commits its add or rolls it back before returning), so the state is just the
committed rows. Surrogate ids are allocated as table length + 1 (autoincrement;
the program never deletes rows). -/
structure DBState where
  price_changes : List PriceChangeRow
  events : List EventRow
  correlations : List CorrelationRow
deriving DecidableEq

/-- The empty database. -/
def DBState.empty : DBState := ⟨[], [], []⟩

/-- The PriceChange ORM object handed to save_analysis_results by the caller
(constructed but not yet persisted, hence no id). -/
structure PriceChangeInput where
  timestamp : ℚ
  price_before : ℚ
  price_after : ℚ
  percentage_change : ℚ
  volume : Option ℚ
deriving DecidableEq

namespace DatabaseManager

/-- DatabaseManager.get_price_change_by_unique: first price-change row whose
(timestamp, percentage_change) matches. -/
def get_price_change_by_unique (s : DBState) (timestamp percentage_change : ℚ) :
    Option PriceChangeRow :=
  s.price_changes.find? fun r =>
    decide (r.timestamp = timestamp ∧ r.percentage_change = percentage_change)

/-- DatabaseManager.get_event_by_unique: first event row matching the four
natural-key fields (timestamp, event_type, source, description). -/
def get_event_by_unique (s : DBState) (e : Event) : Option EventRow :=
  s.events.find? fun r =>
    decide (r.timestamp = e.timestamp ∧ r.event_type = e.event_type ∧
            r.source = e.source ∧ r.description = e.description)

/-- DatabaseManager.get_correlation_by_unique: first correlation row matching
(event_id, price_change_id). -/
def get_correlation_by_unique (s : DBState) (event_id price_change_id : Nat) :
    Option CorrelationRow :=
  s.correlations.find? fun r =>
    decide (r.event_id = event_id ∧ r.price_change_id = price_change_id)

/-- DatabaseManager.save_price_change: build the row, session.add, commit.
Every keyword it passes names a mapped column, so the constructor succeeds and
the commit appends the row. -/
def save_price_change (s : DBState) (timestamp price_before price_after
    percentage_change : ℚ) (volume : Option ℚ) : DBState × PriceChangeRow :=
  let row : PriceChangeRow :=
    ⟨s.price_changes.length + 1, timestamp, price_before, price_after,
     percentage_change, volume⟩
  ({ s with price_changes := s.price_changes ++ [row] }, row)

/-- DatabaseManager.save_event: build the row from the Event dataclass fields,
session.add, commit. All keywords name mapped columns. -/
def save_event (s : DBState) (e : Event) : DBState × EventRow :=
  let row : EventRow :=
    ⟨s.events.length + 1, e.timestamp, e.event_type, e.source, e.description,
     e.sentiment_score⟩
  ({ s with events := s.events ++ [row] }, row)

/-- DatabaseManager.save_correlation: build the EventPriceCorrelation ORM
object passing event_id, price_change_id, impact_score AND confidence_level
keywords (db_manager.py lines 59-64). If the constructor raises, the except
branch rolls back (nothing is pending, committed state unchanged) and
re-raises, carrying the post-rollback state; on success the row is added and
committed. -/
def save_correlation (s : DBState) (c : PriceEventCorrelation)
    (db_event : EventRow) (db_price_change : PriceChangeRow) :
    Except DBState (DBState × CorrelationRow) :=
  match EPCfromKwargs (s.correlations.length + 1)
      { event_id := some db_event.id
        price_change_id := some db_price_change.id
        impact_score := some c.impact_score
        confidence_level := some c.confidence_level } with
  | .error _ => .error s
  | .ok row => .ok ({ s with correlations := s.correlations ++ [row] }, row)

/-- Lines 114-116 of save_analysis_results: reuse the event row found by the
natural-key lookup, or insert a fresh one via save_event. -/
def eventStep (s : DBState) (e : Event) : DBState × EventRow :=
  match get_event_by_unique s e with
  | some ev => (s, ev)
  | none => save_event s e

/-- Lines 101-112 of save_analysis_results: reuse the price-change row found
by the (timestamp, percentage_change) lookup, or insert a fresh one via
save_price_change. -/
def priceChangeStep (s : DBState) (pc : PriceChangeInput) :
    DBState × PriceChangeRow :=
  match get_price_change_by_unique s pc.timestamp pc.percentage_change with
  | some row => (s, row)
  | none =>
    save_price_change s pc.timestamp pc.price_before pc.price_after
      pc.percentage_change pc.volume

/-- The correlation loop of DatabaseManager.save_analysis_results (lines
113-123): for each correlation, reuse or insert the event row, then insert the
correlation only when no row with that (event_id, price_change_id) exists.
An exception from save_correlation propagates out of the loop. -/
def saveCorrelationsLoop (db_price_change : PriceChangeRow) :
    DBState → List PriceEventCorrelation → Except DBState DBState
  | s, [] => .ok s
  | s, c :: rest =>
    let step := eventStep s c.event
    match get_correlation_by_unique step.1 step.2.id db_price_change.id with
    | some _ => saveCorrelationsLoop db_price_change step.1 rest
    | none =>
      match save_correlation step.1 c step.2 db_price_change with
      | .ok (s2, _) => saveCorrelationsLoop db_price_change s2 rest
      | .error s2 => .error s2

/-- DatabaseManager.save_analysis_results (lines 97-129): reuse or insert the
price-change row keyed by (timestamp, percentage_change), then run the
correlation loop. The outer except branch rolls back (no pending change
remains, committed rows stay) and re-raises, so an error carries the committed
state at the moment of failure. -/
def save_analysis_results (s : DBState) (price_change : PriceChangeInput)
    (correlations : List PriceEventCorrelation) : Except DBState DBState :=
  let step := priceChangeStep s price_change
  saveCorrelationsLoop step.2 step.1 correlations

end DatabaseManager

/-- State in which a database call leaves the store, whether it returns or
raises (an error value carries the committed post-rollback state). -/
def runResult : Except DBState DBState → DBState
  | .ok s => s
  | .error s => s

/-- EventAnalyzer.save_analysis_results (event_analyzer.py lines 109-114):
calls the store inside try/except Exception, logs the failure and returns
None; it never re-raises, so it always returns normally with the store left in
whatever committed state the call produced. -/
def EventAnalyzer.save_analysis_results (s : DBState)
    (price_change : PriceChangeInput)
    (correlations : List PriceEventCorrelation) : DBState :=
  match DatabaseManager.save_analysis_results s price_change correlations with
  | .ok s2 => s2
  | .error s2 => s2

/-! Concrete data used by witnesses and counterexamples. Timestamps are POSIX
seconds: 1730721600 = 2024-11-04T12:00:00Z, 1730714400 = 2024-11-04T10:00:00Z. -/

/-- The spec's worked example event: ETF approval two hours before the price
change, sentiment 0.8. -/
def exampleETFEvent : Event :=
  { timestamp := 1730714400, event_type := "ETF", source := "SEC",
    description := "ETF approval", sentiment_score := some (4/5) }

/-- A fully-built correlation payload item for the example event (impact 0.4,
confidence 0.9). -/
def exampleCorrelation : PriceEventCorrelation :=
  { event := exampleETFEvent, impact_score := 2/5, confidence_level := 9/10 }

/-- The example price change handed to the store: +15% at 2024-11-04T12:00:00Z. -/
def examplePriceChange : PriceChangeInput :=
  { timestamp := 1730721600, price_before := 100, price_after := 115,
    percentage_change := 15, volume := none }

/-- The committed store state left behind by
save_analysis_results DBState.empty examplePriceChange [exampleCorrelation]:
the price-change row and the event row were committed by their sub-saves
before save_correlation raised; no correlation row exists. -/
def stAfterFirstCall : DBState :=
  ⟨[⟨1, 1730721600, 100, 115, 15, none⟩],
   [⟨1, 1730714400, "ETF", "SEC", "ETF approval", some (4/5)⟩],
   []⟩

/-- A store state holding one pre-existing correlation row, for exercising the
no-update-transition property. -/
def stWithCorrelation : DBState :=
  ⟨[⟨1, 1730721600, 100, 115, 15, none⟩],
   [⟨1, 1730714400, "ETF", "SEC", "ETF approval", some (4/5)⟩],
   [⟨1, 1, 1, 2/5⟩]⟩

/-- The store state produced by persisting the example price change with an
empty correlation list into an empty store: one committed price-change row and
nothing else. -/
def stJustPriceChange : DBState :=
  ⟨[⟨1, 1730721600, 100, 115, 15, none⟩], [], []⟩

/-! Helper lemmas about the scoring factors, shared by several claims. -/

lemma time_factor_pos (pcd t : ℚ) : 0 < time_factor pcd t := by
  rw [time_factor]; positivity

lemma time_factor_le_one (pcd t : ℚ) : time_factor pcd t ≤ 1 := by
  rw [time_factor, div_le_one (by positivity)]
  exact le_add_of_nonneg_right (abs_nonneg _)

lemma sentiment_factor_nonneg (pcp : ℚ) (s : Option ℚ) :
    0 ≤ sentiment_factor pcp s := by
  rcases s with _ | v
  · norm_num [sentiment_factor]
  · rw [sentiment_factor]
    split
    · exact abs_nonneg v
    · norm_num

lemma event_type_factor_pos (t : String) : 0 < event_type_factor t := by
  rw [event_type_factor]
  split
  · norm_num
  · split <;> norm_num

/-- C3: the claim says the scorer always succeeds on well-formed input. In the
code, analyze_influences builds each cause with
PriceEventCorrelation(event=..., impact_score=...), omitting the required
dataclass field confidence_level, so scoring any nonempty event list raises
TypeError: the no-failure claim fails on every event, well-formed or not. -/
theorem analyze_influences_raises_on_any_event (pcd pcp : ℚ) (e : Event)
    (es : List Event) :
    analyze_influences pcd pcp (e :: es) =
      .error "TypeError: PriceEventCorrelation.__init__ missing required argument" := rfl

/-- C4: the per-event impact score is exactly
min(1, time_factor * sentiment_factor * event_type_factor), with category
weight 3/2 for ETF, 6/5 for REGULATION and 1 otherwise; it always lies in
[0, 1]; and on the spec's worked example (+15% at 2024-11-04T12:00, ETF event
at 10:00 with sentiment 0.8) it equals exactly 0.4 = 2/5. -/
theorem impact_score_formula_bounds_example :
    (∀ pcd pcp e, impact_score pcd pcp e =
        min 1 (time_factor pcd e.timestamp *
               sentiment_factor pcp e.sentiment_score *
               event_type_factor e.event_type)) ∧
    event_type_factor "ETF" = 3/2 ∧ event_type_factor "REGULATION" = 6/5 ∧
    event_type_factor "TRADE" = 1 ∧
    (∀ pcd pcp e, 0 ≤ impact_score pcd pcp e ∧ impact_score pcd pcp e ≤ 1) ∧
    impact_score 1730721600 15 exampleETFEvent = 2/5 := by
  refine ⟨fun _ _ _ => rfl, by rfl, by rfl, by rfl,
    fun pcd pcp e => ⟨?_, min_le_left _ _⟩, ?_⟩
  · exact le_min (by norm_num)
      (mul_nonneg
        (mul_nonneg (time_factor_pos pcd e.timestamp).le
          (sentiment_factor_nonneg pcp e.sentiment_score))
        (event_type_factor_pos e.event_type).le)
  · show min 1 (time_factor 1730721600 1730714400 *
        sentiment_factor 15 (some (4/5)) * event_type_factor "ETF") = 2/5
    rw [time_factor, sentiment_factor, event_type_factor]
    rw [abs_of_nonneg (by norm_num : (0:ℚ) ≤ (1730721600 - 1730714400) / 3600)]
    norm_num
    rw [abs_of_nonneg (by norm_num : (0:ℚ) ≤ 4/5)]
    rw [min_eq_right (by norm_num)]
    norm_num

/-- C5: the sentiment factor is 1 when the event carries no sentiment score,
the absolute sentiment when the sentiment sign matches the price-change sign,
and 1/2 otherwise — in particular whenever the price change is zero. -/
theorem sentiment_factor_cases :
    (∀ pcp, sentiment_factor pcp none = 1) ∧
    (∀ pcp v, (pcp > 0 ∧ v > 0) ∨ (pcp < 0 ∧ v < 0) →
        sentiment_factor pcp (some v) = |v|) ∧
    (∀ pcp v, ¬((pcp > 0 ∧ v > 0) ∨ (pcp < 0 ∧ v < 0)) →
        sentiment_factor pcp (some v) = 1/2) ∧
    (∀ v : ℚ, sentiment_factor 0 (some v) = 1/2) := by
  refine ⟨fun _ => rfl, fun pcp v h => ?_, fun pcp v h => ?_, fun v => ?_⟩
  · rw [sentiment_factor, if_pos h]
  · rw [sentiment_factor, if_neg h]
  · rw [sentiment_factor, if_neg]
    rintro (⟨h0, -⟩ | ⟨h0, -⟩) <;> exact absurd h0 (lt_irrefl 0)

/-- Witness for sentiment_factor_cases at concrete inputs: a matching positive
pair gives 4/5, an opposing pair gives 1/2, a missing score gives 1, and a zero
price change gives 1/2. -/
theorem sentiment_factor_cases_witness :
    sentiment_factor 15 none = 1 ∧
    sentiment_factor 15 (some (4/5)) = |(4/5 : ℚ)| ∧
    sentiment_factor 15 (some (-(3/10))) = 1/2 ∧
    sentiment_factor 0 (some (4/5)) = 1/2 :=
  ⟨sentiment_factor_cases.1 15,
   sentiment_factor_cases.2.1 15 (4/5) (Or.inl ⟨by norm_num, by norm_num⟩),
   sentiment_factor_cases.2.2.1 15 (-(3/10)) (by push_neg; norm_num),
   sentiment_factor_cases.2.2.2 (4/5)⟩

/-- C7: the temporal factor is strictly smaller for the timestamp farther from
the reference time, equals 1 exactly when the event time coincides with the
reference time, and lies in the interval (0, 1] always. -/
theorem time_factor_properties :
    (∀ pcd t1 t2, |pcd - t1| < |pcd - t2| →
        time_factor pcd t2 < time_factor pcd t1) ∧
    (∀ pcd t, time_factor pcd t = 1 ↔ t = pcd) ∧
    (∀ pcd t, 0 < time_factor pcd t ∧ time_factor pcd t ≤ 1) := by
  refine ⟨fun pcd t1 t2 h => ?_, fun pcd t => ?_, fun pcd t =>
    ⟨time_factor_pos pcd t, time_factor_le_one pcd t⟩⟩
  · rw [time_factor, time_factor]
    apply one_div_lt_one_div_of_lt (by positivity)
    have h36 : |(3600 : ℚ)| = 3600 := abs_of_nonneg (by norm_num)
    rw [abs_div, abs_div, h36]
    exact add_lt_add_left ((div_lt_div_iff_of_pos_right (by norm_num)).mpr h) 1
  · have hpos : (0:ℚ) < 1 + |(pcd - t) / 3600| := by positivity
    rw [time_factor, div_eq_one_iff_eq hpos.ne']
    constructor
    · intro h1
      have habs : |(pcd - t) / 3600| = 0 := by linarith
      rcases div_eq_zero_iff.mp (abs_eq_zero.mp habs) with hsub | h36
      · linarith
      · exact absurd h36 (by norm_num)
    · intro h1
      subst h1
      simp

/-- Witness for time_factor_properties: a delta of one hour beats a delta of
two hours, the factor is 1 at delta zero, and the factor at two hours lies in
(0, 1]. -/
theorem time_factor_properties_witness :
    time_factor 0 7200 < time_factor 0 3600 ∧
    time_factor 0 0 = 1 ∧
    0 < time_factor 0 7200 ∧ time_factor 0 7200 ≤ 1 :=
  ⟨time_factor_properties.1 0 3600 7200 (by
      rw [show (0:ℚ) - 3600 = -3600 by norm_num,
        show (0:ℚ) - 7200 = -7200 by norm_num, abs_neg, abs_neg,
        abs_of_nonneg (by norm_num : (0:ℚ) ≤ 3600),
        abs_of_nonneg (by norm_num : (0:ℚ) ≤ 7200)]
      norm_num),
   (time_factor_properties.2.1 0 0).mpr rfl,
   (time_factor_properties.2.2 0 7200).1,
   (time_factor_properties.2.2 0 7200).2⟩

/-! Helper lemmas about the correlation store, shared by several claims. -/

lemma save_correlation_eq_error (s : DBState) (c : PriceEventCorrelation)
    (ev : EventRow) (pcr : PriceChangeRow) :
    DatabaseManager.save_correlation s c ev pcr = .error s := rfl

lemma eventStep_spec (s : DBState) (e : Event) :
    (DatabaseManager.eventStep s e).1.price_changes = s.price_changes ∧
    (∀ r ∈ s.events, r ∈ (DatabaseManager.eventStep s e).1.events) ∧
    (DatabaseManager.eventStep s e).1.correlations = s.correlations := by
  rw [DatabaseManager.eventStep]
  rcases hev : DatabaseManager.get_event_by_unique s e with _ | ev
  · exact ⟨rfl, fun r hr => List.mem_append_left _ hr, rfl⟩
  · exact ⟨rfl, fun r hr => hr, rfl⟩

lemma priceChangeStep_spec (s : DBState) (pc : PriceChangeInput) :
    (∀ r ∈ s.price_changes,
        r ∈ (DatabaseManager.priceChangeStep s pc).1.price_changes) ∧
    (DatabaseManager.priceChangeStep s pc).2 ∈
      (DatabaseManager.priceChangeStep s pc).1.price_changes ∧
    (DatabaseManager.priceChangeStep s pc).2.timestamp = pc.timestamp ∧
    (DatabaseManager.priceChangeStep s pc).2.percentage_change =
      pc.percentage_change ∧
    (DatabaseManager.priceChangeStep s pc).1.events = s.events ∧
    (DatabaseManager.priceChangeStep s pc).1.correlations = s.correlations := by
  rw [DatabaseManager.priceChangeStep]
  rcases hpc : DatabaseManager.get_price_change_by_unique s pc.timestamp
      pc.percentage_change with _ | row
  · exact ⟨fun r hr => List.mem_append_left _ hr,
      List.mem_append_right _ (List.mem_singleton.mpr rfl), rfl, rfl, rfl, rfl⟩
  · have hprop := List.find?_some hpc
    simp only [decide_eq_true_eq] at hprop
    exact ⟨fun r hr => hr, List.mem_of_find?_eq_some hpc, hprop.1, hprop.2,
      rfl, rfl⟩

lemma saveCorrelationsLoop_spec (pcrow : PriceChangeRow) :
    ∀ (corrs : List PriceEventCorrelation) (s : DBState),
      (runResult (DatabaseManager.saveCorrelationsLoop pcrow s corrs)).price_changes =
        s.price_changes ∧
      (∀ r ∈ s.events,
          r ∈ (runResult (DatabaseManager.saveCorrelationsLoop pcrow s corrs)).events) ∧
      (runResult (DatabaseManager.saveCorrelationsLoop pcrow s corrs)).correlations =
        s.correlations := by
  intro corrs
  induction corrs with
  | nil => intro s; exact ⟨rfl, fun r hr => hr, rfl⟩
  | cons c rest ih =>
    intro s
    rw [DatabaseManager.saveCorrelationsLoop]
    obtain ⟨hp, he, hc⟩ := eventStep_spec s c.event
    rcases hcorr : DatabaseManager.get_correlation_by_unique
        (DatabaseManager.eventStep s c.event).1
        (DatabaseManager.eventStep s c.event).2.id pcrow.id with _ | found
    · simp only [hcorr, save_correlation_eq_error]
      exact ⟨hp, he, hc⟩
    · simp only [hcorr]
      obtain ⟨ihp, ihe, ihc⟩ := ih (DatabaseManager.eventStep s c.event).1
      exact ⟨ihp.trans hp, fun r hr => ihe r (he r hr), ihc.trans hc⟩

lemma save_analysis_results_spec (s : DBState) (pc : PriceChangeInput)
    (corrs : List PriceEventCorrelation) :
    (∀ r ∈ s.price_changes,
        r ∈ (runResult (DatabaseManager.save_analysis_results s pc corrs)).price_changes) ∧
    (∀ r ∈ s.events,
        r ∈ (runResult (DatabaseManager.save_analysis_results s pc corrs)).events) ∧
    (runResult (DatabaseManager.save_analysis_results s pc corrs)).correlations =
      s.correlations ∧
    (∃ r ∈ (runResult (DatabaseManager.save_analysis_results s pc corrs)).price_changes,
        r.timestamp = pc.timestamp ∧ r.percentage_change = pc.percentage_change) := by
  obtain ⟨hmono, hmem, hts, hpct, hev2, hcorr2⟩ := priceChangeStep_spec s pc
  obtain ⟨lp, le2, lc⟩ := saveCorrelationsLoop_spec
    (DatabaseManager.priceChangeStep s pc).2 corrs
    (DatabaseManager.priceChangeStep s pc).1
  have hun : DatabaseManager.save_analysis_results s pc corrs =
      DatabaseManager.saveCorrelationsLoop (DatabaseManager.priceChangeStep s pc).2
        (DatabaseManager.priceChangeStep s pc).1 corrs := rfl
  rw [hun]
  refine ⟨fun r hr => ?_, fun r hr => ?_, lc.trans hcorr2,
    ⟨(DatabaseManager.priceChangeStep s pc).2, ?_, hts, hpct⟩⟩
  · rw [lp]; exact hmono r hr
  · exact le2 r (by rw [hev2]; exact hr)
  · rw [lp]; exact hmem

/-- C1: the claim expects two identical persist calls to leave one price-change
row, one row per distinct event and one correlation row per pair, both calls
succeeding. In the code, save_correlation passes a confidence_level keyword to
an ORM class without that column, so both calls raise TypeError and the store
ends with one price-change row, one event row and NO correlation row. -/
theorem persist_twice_no_correlation_rows :
    DatabaseManager.save_analysis_results DBState.empty examplePriceChange
      [exampleCorrelation] = .error stAfterFirstCall ∧
    DatabaseManager.save_analysis_results stAfterFirstCall examplePriceChange
      [exampleCorrelation] = .error stAfterFirstCall ∧
    stAfterFirstCall.price_changes.length = 1 ∧
    stAfterFirstCall.events.length = 1 ∧
    stAfterFirstCall.correlations = [] :=
  ⟨rfl, rfl, rfl, rfl, rfl⟩

/-- C2 counterexample: a persist call into an empty store fails (raises), yet
the price-change row and the event row committed earlier in the very same call
persist — the call is not one atomic unit, so partial rows do survive. -/
theorem atomicity_counterexample :
    DatabaseManager.save_analysis_results DBState.empty examplePriceChange
      [exampleCorrelation] = .error stAfterFirstCall ∧
    stAfterFirstCall.price_changes.length = 1 ∧
    stAfterFirstCall.events.length = 1 ∧
    stAfterFirstCall.correlations = [] :=
  ⟨rfl, rfl, rfl, rfl⟩

/-- C2 (amended): each sub-save commits on its own, so when a call to
save_analysis_results fails, only the failing sub-operation is rolled back and
the error propagates; all rows committed before the failure persist — every
pre-existing row is still present, the store's correlations are untouched, and
a price-change row matching the request is present even though the call failed. -/
theorem save_failure_rolls_back_only_pending (s : DBState)
    (pc : PriceChangeInput) (corrs : List PriceEventCorrelation) (s2 : DBState)
    (h : DatabaseManager.save_analysis_results s pc corrs = .error s2) :
    (∀ r ∈ s.price_changes, r ∈ s2.price_changes) ∧
    (∀ r ∈ s.events, r ∈ s2.events) ∧
    s2.correlations = s.correlations ∧
    ∃ r ∈ s2.price_changes,
      r.timestamp = pc.timestamp ∧ r.percentage_change = pc.percentage_change := by
  have hs := save_analysis_results_spec s pc corrs
  rw [h] at hs
  simpa [runResult] using hs

/-- Witness for save_failure_rolls_back_only_pending at a concrete failing
call: the failed attempt leaves the correlations table exactly as it started. -/
theorem save_failure_rolls_back_only_pending_witness :
    stAfterFirstCall.correlations = DBState.empty.correlations :=
  (save_failure_rolls_back_only_pending DBState.empty examplePriceChange
    [exampleCorrelation] stAfterFirstCall rfl).2.2.1

/-- C8: once a correlation row exists, no save_analysis_results call ever
changes it: the row survives verbatim and the whole correlations table is left
exactly as it was — there is no update transition for correlations. -/
theorem correlation_rows_never_updated (s : DBState) (pc : PriceChangeInput)
    (corrs : List PriceEventCorrelation) (row : CorrelationRow)
    (h : row ∈ s.correlations) :
    row ∈ (runResult (DatabaseManager.save_analysis_results s pc corrs)).correlations ∧
    (runResult (DatabaseManager.save_analysis_results s pc corrs)).correlations =
      s.correlations := by
  have hs := (save_analysis_results_spec s pc corrs).2.2.1
  exact ⟨by rw [hs]; exact h, hs⟩

/-- Witness for correlation_rows_never_updated: a pre-existing correlation row
with impact score 2/5 is still in the store after a further persist call. -/
theorem correlation_rows_never_updated_witness :
    (⟨1, 1, 1, 2/5⟩ : CorrelationRow) ∈
      (runResult (DatabaseManager.save_analysis_results stWithCorrelation
        examplePriceChange [exampleCorrelation])).correlations :=
  (correlation_rows_never_updated stWithCorrelation examplePriceChange
    [exampleCorrelation] ⟨1, 1, 1, 2/5⟩ (by simp [stWithCorrelation])).1

/-- C9: save_correlation constructs the ORM entity with a confidence_level
keyword that names no mapped column, so every attempt to insert a
not-yet-stored correlation raises and rolls back, leaving the state unchanged;
consequently a persist call can only complete successfully without ever
touching the correlations table. -/
theorem save_correlation_always_raises :
    (∀ (s : DBState) (c : PriceEventCorrelation) (ev : EventRow)
        (pcr : PriceChangeRow),
        DatabaseManager.save_correlation s c ev pcr = .error s) ∧
    (∀ (s : DBState) (pc : PriceChangeInput)
        (corrs : List PriceEventCorrelation) (s2 : DBState),
        DatabaseManager.save_analysis_results s pc corrs = .ok s2 →
          s2.correlations = s.correlations) := by
  refine ⟨fun s c ev pcr => rfl, fun s pc corrs s2 h => ?_⟩
  have hs := (save_analysis_results_spec s pc corrs).2.2.1
  rw [h] at hs
  simpa [runResult] using hs

/-- Witness for save_correlation_always_raises: a successful persist call (one
with an empty correlation payload) leaves the correlations table unchanged. -/
theorem save_correlation_always_raises_witness :
    stJustPriceChange.correlations = DBState.empty.correlations :=
  save_correlation_always_raises.2 DBState.empty examplePriceChange []
    stJustPriceChange rfl

/-- C10: the EventAnalyzer wrapper around the store's save_analysis_results
catches every exception and returns normally: its result is always the
committed state the store call left behind, and in particular a storage
failure never propagates — the wrapper just returns the post-rollback state. -/
theorem wrapper_never_propagates_failure :
    (∀ (s : DBState) (pc : PriceChangeInput)
        (corrs : List PriceEventCorrelation),
        EventAnalyzer.save_analysis_results s pc corrs =
          runResult (DatabaseManager.save_analysis_results s pc corrs)) ∧
    (∀ (s : DBState) (pc : PriceChangeInput)
        (corrs : List PriceEventCorrelation) (s2 : DBState),
        DatabaseManager.save_analysis_results s pc corrs = .error s2 →
          EventAnalyzer.save_analysis_results s pc corrs = s2) := by
  have h1 : ∀ (s : DBState) (pc : PriceChangeInput)
      (corrs : List PriceEventCorrelation),
      EventAnalyzer.save_analysis_results s pc corrs =
        runResult (DatabaseManager.save_analysis_results s pc corrs) := by
    intro s pc corrs
    cases h2 : DatabaseManager.save_analysis_results s pc corrs <;>
      simp only [EventAnalyzer.save_analysis_results, runResult, h2]
  exact ⟨h1, fun s pc corrs s2 h => by rw [h1 s pc corrs, h]; rfl⟩

/-- Witness for wrapper_never_propagates_failure at a concrete failing store
call: the wrapper returns the partially-committed state instead of raising. -/
theorem wrapper_never_propagates_failure_witness :
    EventAnalyzer.save_analysis_results DBState.empty examplePriceChange
      [exampleCorrelation] = stAfterFirstCall :=
  wrapper_never_propagates_failure.2 DBState.empty examplePriceChange
    [exampleCorrelation] stAfterFirstCall rfl

/-! Helper lemmas about the stable descending sort, for the ranking claim. -/

lemma causes_le_trans (a b c : PriceEventCorrelation)
    (hab : decide (b.impact_score ≤ a.impact_score) = true)
    (hbc : decide (c.impact_score ≤ b.impact_score) = true) :
    decide (c.impact_score ≤ a.impact_score) = true := by
  simp only [decide_eq_true_eq] at hab hbc ⊢
  exact le_trans hbc hab

lemma causes_le_total (a b : PriceEventCorrelation) :
    (decide (b.impact_score ≤ a.impact_score) ||
     decide (a.impact_score ≤ b.impact_score)) = true := by
  simp only [Bool.or_eq_true, decide_eq_true_eq]
  exact le_total _ _

lemma sortCauses_sorted (l : List PriceEventCorrelation) :
    (sortCauses l).Pairwise (fun a b => b.impact_score ≤ a.impact_score) := by
  have h := @List.sorted_mergeSort PriceEventCorrelation
    (fun a b => decide (b.impact_score ≤ a.impact_score))
    causes_le_trans causes_le_total l
  exact h.imp (fun hab => by simpa using hab)

lemma sortCauses_filter_eq (l : List PriceEventCorrelation) (v : ℚ) :
    (sortCauses l).filter (fun c => decide (c.impact_score = v)) =
      l.filter (fun c => decide (c.impact_score = v)) := by
  set p : PriceEventCorrelation → Bool := fun c => decide (c.impact_score = v)
    with hp
  have hpmem : ∀ a ∈ l.filter p, p a = true := fun a ha =>
    (List.mem_filter.mp ha).2
  have hpair : (l.filter p).Pairwise
      (fun a b => decide (b.impact_score ≤ a.impact_score) = true) := by
    apply List.pairwise_of_forall_mem_list
    intro a ha b hb
    have ha2 := hpmem a ha
    have hb2 := hpmem b hb
    simp only [hp, decide_eq_true_eq] at ha2 hb2 ⊢
    rw [ha2, hb2]
  have hsub : List.Sublist (l.filter p) (sortCauses l) :=
    List.sublist_mergeSort causes_le_trans causes_le_total hpair
      (List.filter_sublist l)
  have hsub2 : List.Sublist (l.filter p) ((sortCauses l).filter p) := by
    have h3 := hsub.filter p
    rwa [List.filter_eq_self.mpr hpmem] at h3
  have hperm : List.Perm ((sortCauses l).filter p) (l.filter p) :=
    (List.mergeSort_perm l _).filter p
  exact (hsub2.eq_of_length hperm.length_eq.symm).symm

/-- C6: whenever the scorer returns a list of causes it is sorted descending by
impact score; the sort step itself always produces a descending list and is
stable — for every score value, the elements carrying that score appear in the
output in exactly their input order. -/
theorem scorer_output_sorted_stable :
    (∀ (pcd pcp : ℚ) (events : List Event)
        (causes : List PriceEventCorrelation),
        analyze_influences pcd pcp events = .ok causes →
          causes.Pairwise (fun a b => b.impact_score ≤ a.impact_score)) ∧
    (∀ l : List PriceEventCorrelation,
        (sortCauses l).Pairwise (fun a b => b.impact_score ≤ a.impact_score)) ∧
    (∀ (l : List PriceEventCorrelation) (v : ℚ),
        (sortCauses l).filter (fun c => decide (c.impact_score = v)) =
          l.filter (fun c => decide (c.impact_score = v))) := by
  refine ⟨fun pcd pcp events causes h => ?_, sortCauses_sorted,
    sortCauses_filter_eq⟩
  rw [analyze_influences] at h
  rcases h2 : scoreAll pcd pcp events with _ | cs
  · rw [h2] at h; exact absurd h (by simp)
  · rw [h2] at h
    have hcauses : causes = sortCauses cs := by
      injection h with h3
      exact h3.symm
    rw [hcauses]
    exact sortCauses_sorted cs

/-- Witness for scorer_output_sorted_stable: the one input on which the scorer
actually returns — the empty event list — yields a (trivially) descending
output. -/
theorem scorer_output_sorted_stable_witness :
    List.Pairwise
      (fun a b : PriceEventCorrelation => b.impact_score ≤ a.impact_score)
      ([] : List PriceEventCorrelation) :=
  scorer_output_sorted_stable.1 0 0 [] []
    (by simp [analyze_influences, scoreAll, sortCauses])

end MarketAnalysis
